import Mathlib

/-!
Verification of the TriggerConfig data definition in
src/modules/probe_driver/datadef/prblimit.py.

The source file declares a plain (non-frozen) Python dataclass with five
fields and no methods of its own:

  @dataclass
  class TriggerConfig:
      trigger_in_threshold: float
      trigger_in_duration_min: int   # in clk cycles
      trigger_in_duration_max: int   # in clk cycles
      intensity_in_min: Annotated[int, np.uint16]
      intensity_in_max: Annotated[int, np.uint16]

The dataclass decorator generates an initializer that only assigns the five
arguments to the five fields, a structural equality comparing the tuples of
fields, and (being non-frozen) leaves ordinary attribute assignment
available. The Annotated metadata on the intensity fields is inert at
runtime. This development embeds those generated operations and the
specification's construction contract and settles the claims against them.
-/

namespace VoloVhdl

/-- A Python float value as the record stores it. The code performs no
floating-point arithmetic on the threshold field, only storage, retrieval
and equality comparison, so a value is modelled as either NaN or an exact
numeric value; pyEq below models the equality operator of Python floats,
under which NaN compares unequal to every float. -/
inductive PyFloat where
  | nan : PyFloat
  | val : ℚ → PyFloat
deriving DecidableEq

/-- The equality operator of Python floats: NaN is unequal to everything,
and two non-NaN values are equal exactly when they denote the same number. -/
def PyFloat.pyEq : PyFloat → PyFloat → Bool
  | PyFloat.val a, PyFloat.val b => a == b
  | _, _ => false

/-- The error taxonomy of the construction contract in the specification:
RangeError when a scalar lies outside its permitted domain, and
InvalidRangeError when a min/max pair is internally inconsistent. The
source dataclass itself raises neither. -/
inductive ConstructError where
  | rangeError : ConstructError
  | invalidRangeError : ConstructError
deriving DecidableEq

/-- The TriggerConfig dataclass of src/modules/probe_driver/datadef/prblimit.py:
a threshold that is a Python float, two duration fields that are Python ints,
and two intensity fields that are Python ints carrying an inert
Annotated metadata mark naming np.uint16. Python ints are unbounded, so the
integer fields are embedded as Int. -/
structure TriggerConfig where
  trigger_in_threshold : PyFloat
  trigger_in_duration_min : Int
  trigger_in_duration_max : Int
  intensity_in_min : Int
  intensity_in_max : Int
deriving DecidableEq

/-- The initializer the dataclass decorator generates for TriggerConfig: it
assigns the five arguments to the five fields in order and performs no
validation of any kind, so it never fails. The Except wrapper over the
specification's error taxonomy makes the construction contract statable. -/
def TriggerConfig.init (t : PyFloat) (dmin dmax imin imax : Int) :
    Except ConstructError TriggerConfig :=
  Except.ok
    { trigger_in_threshold := t
      trigger_in_duration_min := dmin
      trigger_in_duration_max := dmax
      intensity_in_min := imin
      intensity_in_max := imax }

/-- The initializer with the ambient interpreter state made explicit: the
generated initializer body only binds the five arguments to the fields of
the new record and reads or writes no other state, so any ambient state
passes through unchanged. -/
def TriggerConfig.init_st {S : Type} (s : S) (t : PyFloat) (dmin dmax imin imax : Int) :
    Except ConstructError TriggerConfig × S :=
  (TriggerConfig.init t dmin dmax imin imax, s)

/-- The structural equality the dataclass decorator generates: the tuple of
the five fields of one record is compared elementwise with the tuple of the
other, the float field under Python float equality and the int fields under
integer equality. -/
def TriggerConfig.pyEq (a b : TriggerConfig) : Bool :=
  PyFloat.pyEq a.trigger_in_threshold b.trigger_in_threshold
    && a.trigger_in_duration_min == b.trigger_in_duration_min
    && a.trigger_in_duration_max == b.trigger_in_duration_max
    && a.intensity_in_min == b.intensity_in_min
    && a.intensity_in_max == b.intensity_in_max

/-- Python attribute assignment to trigger_in_threshold: the dataclass is
declared without frozen=True, so ordinary attribute assignment rebinds the
field on the instance. -/
def TriggerConfig.set_trigger_in_threshold (c : TriggerConfig) (v : PyFloat) : TriggerConfig :=
  { c with trigger_in_threshold := v }

/-- Python attribute assignment to trigger_in_duration_min on the non-frozen
dataclass. -/
def TriggerConfig.set_trigger_in_duration_min (c : TriggerConfig) (v : Int) : TriggerConfig :=
  { c with trigger_in_duration_min := v }

/-- Python attribute assignment to trigger_in_duration_max on the non-frozen
dataclass. -/
def TriggerConfig.set_trigger_in_duration_max (c : TriggerConfig) (v : Int) : TriggerConfig :=
  { c with trigger_in_duration_max := v }

/-- Python attribute assignment to intensity_in_min on the non-frozen
dataclass. -/
def TriggerConfig.set_intensity_in_min (c : TriggerConfig) (v : Int) : TriggerConfig :=
  { c with intensity_in_min := v }

/-- Python attribute assignment to intensity_in_max on the non-frozen
dataclass. -/
def TriggerConfig.set_intensity_in_max (c : TriggerConfig) (v : Int) : TriggerConfig :=
  { c with intensity_in_max := v }

/-- The record flattened to the tuple of its five declared field types, in
declaration order. -/
def TriggerConfig.toTuple (c : TriggerConfig) : PyFloat × Int × Int × Int × Int :=
  (c.trigger_in_threshold, c.trigger_in_duration_min, c.trigger_in_duration_max,
   c.intensity_in_min, c.intensity_in_max)

/-- A record built from a tuple of the five declared field types. -/
def TriggerConfig.ofTuple (p : PyFloat × Int × Int × Int × Int) : TriggerConfig :=
  { trigger_in_threshold := p.1
    trigger_in_duration_min := p.2.1
    trigger_in_duration_max := p.2.2.1
    intensity_in_min := p.2.2.2.1
    intensity_in_max := p.2.2.2.2 }

/-- The value range of the numpy uint16 type named by the Annotated metadata
on the two intensity fields: the nonnegative integers below 2 to the 16. -/
def np_uint16_range (n : Int) : Prop := 0 ≤ n ∧ n < 2 ^ 16

/-- The invariants the specification's data model states for TriggerConfig:
ordered duration pair, ordered intensity pair, both intensities within the
unsigned 16-bit range, and nonnegative durations. -/
def TriggerConfig.spec_invariants (c : TriggerConfig) : Prop :=
  c.trigger_in_duration_min ≤ c.trigger_in_duration_max ∧
  c.intensity_in_min ≤ c.intensity_in_max ∧
  (0 ≤ c.intensity_in_min ∧ c.intensity_in_min ≤ 65535) ∧
  (0 ≤ c.intensity_in_max ∧ c.intensity_in_max ≤ 65535) ∧
  0 ≤ c.trigger_in_duration_min ∧ 0 ≤ c.trigger_in_duration_max

instance (c : TriggerConfig) : Decidable (TriggerConfig.spec_invariants c) := by
  unfold TriggerConfig.spec_invariants
  infer_instance

/-- Claim C1, counterexample: constructing with intensity_in_min = 70000 does
not fail with RangeError — the generated initializer performs no validation
and returns the record with the out-of-range value stored. -/
theorem claim_C1_counterexample :
    TriggerConfig.init (PyFloat.val 0) 0 0 70000 0 ≠
      Except.error ConstructError.rangeError ∧
    TriggerConfig.init (PyFloat.val 0) 0 0 70000 0 =
      Except.ok ⟨PyFloat.val 0, 0, 0, 70000, 0⟩ :=
  ⟨fun h => Except.noConfusion h, rfl⟩

/-- Claim C1, amended: the initializer performs no intensity range check —
for every input whose intensity bounds lie outside [0, 65535], construction
still succeeds and stores the supplied values verbatim, raising no error. -/
theorem claim_C1_amended (t : PyFloat) (dmin dmax imin imax : Int)
    (h : imin < 0 ∨ 65535 < imin ∨ imax < 0 ∨ 65535 < imax) :
    TriggerConfig.init t dmin dmax imin imax =
      Except.ok ⟨t, dmin, dmax, imin, imax⟩ :=
  rfl

/-- Claim C1, witness: the amended theorem applied at intensity_in_min = 70000. -/
theorem claim_C1_witness :
    TriggerConfig.init (PyFloat.val 1) 2 3 70000 4 =
      Except.ok ⟨PyFloat.val 1, 2, 3, 70000, 4⟩ :=
  claim_C1_amended (PyFloat.val 1) 2 3 70000 4 (Or.inr (Or.inl (by decide)))

/-- Claim C2, counterexample: constructing with trigger_in_duration_min = -1
does not fail with RangeError — the generated initializer performs no
validation and returns the record with the negative duration stored. -/
theorem claim_C2_counterexample :
    TriggerConfig.init (PyFloat.val 0) (-1) 0 0 0 ≠
      Except.error ConstructError.rangeError ∧
    TriggerConfig.init (PyFloat.val 0) (-1) 0 0 0 =
      Except.ok ⟨PyFloat.val 0, -1, 0, 0, 0⟩ :=
  ⟨fun h => Except.noConfusion h, rfl⟩

/-- Claim C2, amended: the initializer performs no sign check on the duration
fields — for every input with a negative duration bound, construction still
succeeds and stores the supplied values verbatim, raising no error. -/
theorem claim_C2_amended (t : PyFloat) (dmin dmax imin imax : Int)
    (h : dmin < 0 ∨ dmax < 0) :
    TriggerConfig.init t dmin dmax imin imax =
      Except.ok ⟨t, dmin, dmax, imin, imax⟩ :=
  rfl

/-- Claim C2, witness: the amended theorem applied at
trigger_in_duration_min = -1. -/
theorem claim_C2_witness :
    TriggerConfig.init (PyFloat.val 2) (-1) 5 6 7 =
      Except.ok ⟨PyFloat.val 2, -1, 5, 6, 7⟩ :=
  claim_C2_amended (PyFloat.val 2) (-1) 5 6 7 (Or.inl (by decide))

/-- Claim C3, counterexample: construction with duration pair (10, 5) and
construction with intensity pair (100, 50) both succeed — neither fails with
InvalidRangeError, since the generated initializer checks no ordering. -/
theorem claim_C3_counterexample :
    (TriggerConfig.init (PyFloat.val 0) 10 5 0 0 ≠
       Except.error ConstructError.invalidRangeError ∧
     TriggerConfig.init (PyFloat.val 0) 10 5 0 0 =
       Except.ok ⟨PyFloat.val 0, 10, 5, 0, 0⟩) ∧
    (TriggerConfig.init (PyFloat.val 0) 0 0 100 50 ≠
       Except.error ConstructError.invalidRangeError ∧
     TriggerConfig.init (PyFloat.val 0) 0 0 100 50 =
       Except.ok ⟨PyFloat.val 0, 0, 0, 100, 50⟩) :=
  ⟨⟨fun h => Except.noConfusion h, rfl⟩, ⟨fun h => Except.noConfusion h, rfl⟩⟩

/-- Claim C3, amended: the initializer performs no min/max ordering check —
for every input with an inverted duration pair or an inverted intensity
pair, construction still succeeds and stores the supplied values verbatim,
raising no error. -/
theorem claim_C3_amended (t : PyFloat) (dmin dmax imin imax : Int)
    (h : dmax < dmin ∨ imax < imin) :
    TriggerConfig.init t dmin dmax imin imax =
      Except.ok ⟨t, dmin, dmax, imin, imax⟩ :=
  rfl

/-- Claim C3, witness: the amended theorem applied at the inverted duration
pair (10, 5). -/
theorem claim_C3_witness :
    TriggerConfig.init (PyFloat.val 3) 10 5 1 2 =
      Except.ok ⟨PyFloat.val 3, 10, 5, 1, 2⟩ :=
  claim_C3_amended (PyFloat.val 3) 10 5 1 2 (Or.inl (by decide))

/-- Claim C4: for every five inputs satisfying the validity precondition,
construction succeeds and each of the five fields of the resulting record is
exactly the value supplied for it (round-trip identity). -/
theorem claim_C4_roundtrip (t : PyFloat) (dmin dmax imin imax : Int)
    (h1 : dmin ≤ dmax) (h2 : imin ≤ imax)
    (h3 : 0 ≤ imin) (h4 : imin ≤ 65535) (h5 : 0 ≤ imax) (h6 : imax ≤ 65535)
    (h7 : 0 ≤ dmin) (h8 : 0 ≤ dmax) :
    ∃ c, TriggerConfig.init t dmin dmax imin imax = Except.ok c ∧
      c.trigger_in_threshold = t ∧
      c.trigger_in_duration_min = dmin ∧
      c.trigger_in_duration_max = dmax ∧
      c.intensity_in_min = imin ∧
      c.intensity_in_max = imax :=
  ⟨⟨t, dmin, dmax, imin, imax⟩, rfl, rfl, rfl, rfl, rfl, rfl⟩

/-- Claim C4, witness: the round-trip theorem applied at the end-to-end
example input (threshold = 1.5, durations 2 and 8, intensities 0 and 4095). -/
theorem claim_C4_witness :
    ∃ c, TriggerConfig.init (PyFloat.val (3 / 2)) 2 8 0 4095 = Except.ok c ∧
      c.trigger_in_threshold = PyFloat.val (3 / 2) ∧
      c.trigger_in_duration_min = 2 ∧
      c.trigger_in_duration_max = 8 ∧
      c.intensity_in_min = 0 ∧
      c.intensity_in_max = 4095 :=
  claim_C4_roundtrip (PyFloat.val (3 / 2)) 2 8 0 4095
    (by decide) (by decide) (by decide) (by decide)
    (by decide) (by decide) (by decide) (by decide)

/-- Claim C5, counterexample: the constructor yields a record with
intensity_in_min = 70000, which violates the specified invariants, so not
every constructor-produced record satisfies them. -/
theorem claim_C5_counterexample :
    TriggerConfig.init (PyFloat.val 0) 0 0 70000 0 =
      Except.ok ⟨PyFloat.val 0, 0, 0, 70000, 0⟩ ∧
    ¬ TriggerConfig.spec_invariants ⟨PyFloat.val 0, 0, 0, 70000, 0⟩ :=
  ⟨rfl, by decide⟩

/-- Claim C5, amended: the constructor does not enforce the invariants; it
succeeds on every input, and the record it produces satisfies the specified
invariants exactly when the supplied inputs already do. -/
theorem claim_C5_amended (t : PyFloat) (dmin dmax imin imax : Int) :
    ∃ c, TriggerConfig.init t dmin dmax imin imax = Except.ok c ∧
      (TriggerConfig.spec_invariants c ↔
        (dmin ≤ dmax ∧ imin ≤ imax ∧
         (0 ≤ imin ∧ imin ≤ 65535) ∧ (0 ≤ imax ∧ imax ≤ 65535) ∧
         0 ≤ dmin ∧ 0 ≤ dmax)) :=
  ⟨⟨t, dmin, dmax, imin, imax⟩, rfl, Iff.rfl⟩

/-- Claim C6, counterexample: the dataclass is not frozen, so attribute
assignment is part of a constructed record's interface and changes a field:
assigning 5 to intensity_in_min of a constructor-produced record yields a
different record. -/
theorem claim_C6_counterexample :
    TriggerConfig.init (PyFloat.val 0) 0 0 0 0 =
      Except.ok ⟨PyFloat.val 0, 0, 0, 0, 0⟩ ∧
    TriggerConfig.set_intensity_in_min ⟨PyFloat.val 0, 0, 0, 0, 0⟩ 5 ≠
      ⟨PyFloat.val 0, 0, 0, 0, 0⟩ :=
  ⟨rfl, by decide⟩

/-- Claim C6, amended: TriggerConfig is immutable by convention only — the
class defines no mutation methods of its own, but the dataclass is not
frozen, so attribute assignment mutates the instance; assigning to any one
field changes exactly that field and leaves the other four unchanged. -/
theorem claim_C6_amended (c : TriggerConfig) (t : PyFloat) (v : Int) :
    ((c.set_trigger_in_threshold t).trigger_in_threshold = t ∧
     (c.set_trigger_in_threshold t).trigger_in_duration_min = c.trigger_in_duration_min ∧
     (c.set_trigger_in_threshold t).trigger_in_duration_max = c.trigger_in_duration_max ∧
     (c.set_trigger_in_threshold t).intensity_in_min = c.intensity_in_min ∧
     (c.set_trigger_in_threshold t).intensity_in_max = c.intensity_in_max) ∧
    ((c.set_trigger_in_duration_min v).trigger_in_duration_min = v ∧
     (c.set_trigger_in_duration_min v).trigger_in_threshold = c.trigger_in_threshold ∧
     (c.set_trigger_in_duration_min v).trigger_in_duration_max = c.trigger_in_duration_max ∧
     (c.set_trigger_in_duration_min v).intensity_in_min = c.intensity_in_min ∧
     (c.set_trigger_in_duration_min v).intensity_in_max = c.intensity_in_max) ∧
    ((c.set_trigger_in_duration_max v).trigger_in_duration_max = v ∧
     (c.set_trigger_in_duration_max v).trigger_in_threshold = c.trigger_in_threshold ∧
     (c.set_trigger_in_duration_max v).trigger_in_duration_min = c.trigger_in_duration_min ∧
     (c.set_trigger_in_duration_max v).intensity_in_min = c.intensity_in_min ∧
     (c.set_trigger_in_duration_max v).intensity_in_max = c.intensity_in_max) ∧
    ((c.set_intensity_in_min v).intensity_in_min = v ∧
     (c.set_intensity_in_min v).trigger_in_threshold = c.trigger_in_threshold ∧
     (c.set_intensity_in_min v).trigger_in_duration_min = c.trigger_in_duration_min ∧
     (c.set_intensity_in_min v).trigger_in_duration_max = c.trigger_in_duration_max ∧
     (c.set_intensity_in_min v).intensity_in_max = c.intensity_in_max) ∧
    ((c.set_intensity_in_max v).intensity_in_max = v ∧
     (c.set_intensity_in_max v).trigger_in_threshold = c.trigger_in_threshold ∧
     (c.set_intensity_in_max v).trigger_in_duration_min = c.trigger_in_duration_min ∧
     (c.set_intensity_in_max v).trigger_in_duration_max = c.trigger_in_duration_max ∧
     (c.set_intensity_in_max v).intensity_in_min = c.intensity_in_min) :=
  ⟨⟨rfl, rfl, rfl, rfl, rfl⟩, ⟨rfl, rfl, rfl, rfl, rfl⟩, ⟨rfl, rfl, rfl, rfl, rfl⟩,
   ⟨rfl, rfl, rfl, rfl, rfl⟩, ⟨rfl, rfl, rfl, rfl, rfl⟩⟩

/-- Claim C7: the record consists of exactly the five declared scalar fields
— it is in bijection with the tuple of a Python float and four unbounded
integers — and the uint16 range named by the annotation on the two intensity
fields is exactly the interval from 0 to 65535. -/
theorem claim_C7_fields :
    (∀ c, TriggerConfig.ofTuple (TriggerConfig.toTuple c) = c) ∧
    (∀ p, TriggerConfig.toTuple (TriggerConfig.ofTuple p) = p) ∧
    (∀ n : Int, np_uint16_range n ↔ (0 ≤ n ∧ n ≤ 65535)) :=
  ⟨fun _ => rfl, fun _ => rfl, fun n => by unfold np_uint16_range; omega⟩

/-- Claim C8: construction is pure and deterministic — run with the same five
inputs in any two ambient states, it produces the same record, and it leaves
the ambient state it ran in unchanged. -/
theorem claim_C8_pure {S : Type} (s1 s2 : S) (t : PyFloat) (dmin dmax imin imax : Int) :
    (TriggerConfig.init_st s1 t dmin dmax imin imax).1 =
      (TriggerConfig.init_st s2 t dmin dmax imin imax).1 ∧
    (TriggerConfig.init_st s1 t dmin dmax imin imax).2 = s1 :=
  ⟨rfl, rfl⟩

/-- Claim C9: the constructor is total over its input types — for every float
threshold and all integers, including intensities outside [0, 65535],
negative durations and inverted pairs, construction succeeds without error
and stores the supplied values verbatim; the uint16 annotation imposes no
runtime constraint. -/
theorem claim_C9_total (t : PyFloat) (dmin dmax imin imax : Int) :
    TriggerConfig.init t dmin dmax imin imax =
      Except.ok ⟨t, dmin, dmax, imin, imax⟩ :=
  rfl

/-- Claim C10: the generated equality is structural — two records compare
equal exactly when all five corresponding fields compare pairwise equal,
the threshold under Python float equality and the integer fields under
integer equality. -/
theorem claim_C10_structural_eq (a b : TriggerConfig) :
    TriggerConfig.pyEq a b = true ↔
      (PyFloat.pyEq a.trigger_in_threshold b.trigger_in_threshold = true ∧
       a.trigger_in_duration_min = b.trigger_in_duration_min ∧
       a.trigger_in_duration_max = b.trigger_in_duration_max ∧
       a.intensity_in_min = b.intensity_in_min ∧
       a.intensity_in_max = b.intensity_in_max) := by
  unfold TriggerConfig.pyEq
  simp [Bool.and_eq_true, beq_iff_eq, and_assoc]

end VoloVhdl
